import Mathlib

/-
Verification of the take_mut crate (src/lib.rs): the swap primitive `take`,
the `Sentinel` trait with its built-in `Option` provider, and the
sentinel-based swap `take_no_exit`.

Panics are modelled with `Except Unit`: `Except.ok v` is a normal return of
`v`, `Except.error ()` is a panic. The observable outcome of a whole call is
a `RunResult`: the slot state on normal return, the slot state left behind
when a panic propagates past the call, process exit with a status code, or
undefined behavior.
-/

namespace TakeMut

/-- Outcome of a swap operation on a slot of type `T`. `normal s` means the
call returned normally leaving the slot holding `s`; `panicked s` means a
panic propagated past the call leaving the slot holding `s`; `exited c`
means the process terminated with status `c` (no program state remains
observable); `ub` marks undefined behavior. -/
inductive RunResult (T : Type) where
  | normal (slot : T)
  | panicked (slot : T)
  | exited (code : Nat)
  | ub
  deriving DecidableEq

/-- Modelled from the spec: the `exit_on_panic` module is declared in
src/lib.rs (`mod exit_on_panic`) but its source file is missing from the
sources. Per the Abort Guard contract in the spec and the doc comment on
`take` (status code 101), it executes the operation, returns its result on
normal completion, and terminates the process with status 101 if the
operation panics. -/
def exit_on_panic {T : Type} (op : Except Unit T) : RunResult T :=
  match op with
  | .ok v => .normal v
  | .error _ => .exited 101

/-- `take` from src/lib.rs: reads the current value out of the slot
(`ptr::read`), hands it to the closure, writes the closure result back
(`ptr::write`); the whole sequence runs inside `exit_on_panic`. -/
def take {T : Type} (slot : T) (closure : T → Except Unit T) : RunResult T :=
  exit_on_panic (closure slot)

/-- The `Sentinel` trait from src/lib.rs. `new_sentinel` constructs the
placeholder (as arbitrary code it may itself panic, hence `Except`);
`release_sentinel` consumes a placeholder, returning `some ()` on a normal
no-op return and `none` where the source operation is undefined behavior.
The trait supplies an empty-body default for `release_sentinel`. -/
structure Sentinel (T : Type) where
  new_sentinel : Except Unit T
  release_sentinel : T → Option Unit := fun _ => some ()

/-- Models `unchecked_unwrap_none` from the external `unreachable` crate:
on `none` it returns normally with no effect; on `some _` it is undefined
behavior (no runtime check is performed), modelled as `none`. -/
def unchecked_unwrap_none {T : Type} : Option T → Option Unit
  | Option.none => some ()
  | Option.some _ => none

/-- `impl<T> Sentinel for Option<T>` from src/lib.rs: the sentinel is
`None`; `release_sentinel` calls `unchecked_unwrap_none`, avoiding the
check for `None`. -/
def optionSentinel (T : Type) : Sentinel (Option T) where
  new_sentinel := .ok none
  release_sentinel := unchecked_unwrap_none

/-- `take_no_exit` from src/lib.rs: step 1 replaces the slot contents with
a fresh sentinel, retaining the original (if `new_sentinel` itself panics,
the `replace` never runs and the slot is unchanged); step 2 runs the
closure on the original (if it panics, the slot is left holding the
sentinel and the panic propagates); step 3 replaces the sentinel with the
closure result; step 4 releases the displaced sentinel. -/
def take_no_exit {T : Type} (S : Sentinel T) (slot : T)
    (closure : T → Except Unit T) : RunResult T :=
  match S.new_sentinel with
  | .error _ => .panicked slot
  | .ok s =>
    match closure slot with
    | .error _ => .panicked s
    | .ok new_t =>
      match S.release_sentinel s with
      | some _ => .normal new_t
      | none => .ub

/-- Observable events during a traced run: the closure being invoked with a
value, a value being disposed by the closure, and a value being written
into the slot. -/
inductive Event (T : Type) where
  | called (v : T)
  | disposed (v : T)
  | installed (v : T)
  deriving DecidableEq

/-- Recognizes closure-invocation events. -/
def Event.isCalled {T : Type} : Event T → Bool
  | .called _ => true
  | _ => false

/-- Traced version of `take`. A traced closure reports the list of values
it disposes along with its outcome; the semantics records the invocation of
the closure, the disposals it performs, and the final write into the slot,
in program order. -/
def takeTraced {T : Type} (slot : T) (closure : T → List T × Except Unit T) :
    RunResult T × List (Event T) :=
  match closure slot with
  | (ds, .ok new_t) =>
      (.normal new_t, .called slot :: (ds.map .disposed ++ [.installed new_t]))
  | (ds, .error _) => (.exited 101, .called slot :: ds.map .disposed)

/-- Traced version of `take_no_exit`: the sentinel is written into the slot
before the closure runs, and the closure result is written before the
displaced sentinel is released. -/
def take_no_exitTraced {T : Type} (S : Sentinel T) (slot : T)
    (closure : T → List T × Except Unit T) : RunResult T × List (Event T) :=
  match S.new_sentinel with
  | .error _ => (.panicked slot, [])
  | .ok s =>
    match closure slot with
    | (ds, .error _) =>
        (.panicked s, .installed s :: .called slot :: ds.map .disposed)
    | (ds, .ok new_t) =>
      match S.release_sentinel s with
      | some _ =>
          (.normal new_t,
            .installed s :: .called slot ::
              (ds.map .disposed ++ [.installed new_t]))
      | none =>
          (.ub,
            .installed s :: .called slot ::
              (ds.map .disposed ++ [.installed new_t]))

/-- The two-valued enumeration of the concrete disposal scenario. -/
inductive Foo where
  | A
  | B
  deriving DecidableEq

lemma countP_isCalled_map_disposed {T : Type} (ds : List T) :
    (ds.map Event.disposed).countP Event.isCalled = 0 := by
  induction ds with
  | nil => rfl
  | cons d ds ih => simp [List.countP_cons, Event.isCalled, ih]

lemma called_not_mem_map_disposed {T : Type} (v : T) (ds : List T) :
    Event.called v ∉ ds.map Event.disposed := by
  simp

/-- C1: for every type, every initial slot value and every transformation
that returns normally, `take` terminates with the slot holding exactly the
transformation applied to the original value, with no other state change. -/
theorem take_success {T : Type} (v w : T) (f : T → Except Unit T)
    (hf : f v = .ok w) : take v f = .normal w := by
  simp [take, exit_on_panic, hf]

theorem take_success_witness :
    ((fun n : Nat => (Except.ok (n + 1) : Except Unit Nat)) 5 = Except.ok 6) ∧
      take 5 (fun n : Nat => (Except.ok (n + 1) : Except Unit Nat)) =
        .normal 6 :=
  ⟨rfl, take_success 5 6 (fun n => (Except.ok (n + 1) : Except Unit Nat)) rfl⟩

/-- C2: for every type with a Sentinel implementation honoring its contract
(the constructor returns normally and releasing the freshly constructed
sentinel succeeds) and every transformation that returns normally,
`take_no_exit` leaves the slot holding exactly the transformation applied
to the original value, so no sentinel remains in the final state. -/
theorem take_no_exit_success {T : Type} (S : Sentinel T) (v w s : T)
    (f : T → Except Unit T) (hs : S.new_sentinel = .ok s)
    (hr : S.release_sentinel s = some ()) (hf : f v = .ok w) :
    take_no_exit S v f = .normal w := by
  simp [take_no_exit, hs, hf, hr]

theorem take_no_exit_success_witness :
    take_no_exit (optionSentinel Nat) (some 5)
      (fun v => .ok (v.map (fun x => x + 1))) = .normal (some 6) :=
  take_no_exit_success (optionSentinel Nat) (some 5) (some 6) none
    (fun v => .ok (v.map (fun x => x + 1))) rfl rfl rfl

/-- C3: for every transformation that panics, `take` never surfaces the
failure: the call ends in process termination with the fixed nonzero
status 101, and no post-call slot state is observable (the outcome is
neither a normal return nor a propagating panic carrying a slot). -/
theorem take_panic {T : Type} (v : T) (f : T → Except Unit T)
    (hf : f v = .error ()) :
    take v f = .exited 101 ∧ (101 : Nat) ≠ 0 ∧
      ∀ w : T, take v f ≠ .normal w ∧ take v f ≠ .panicked w := by
  refine ⟨by simp [take, exit_on_panic, hf], by decide, ?_⟩
  intro w
  constructor <;> simp [take, exit_on_panic, hf]

theorem take_panic_witness :
    take 5 (fun _ : Nat => (Except.error () : Except Unit Nat)) = .exited 101 ∧
      (101 : Nat) ≠ 0 :=
  ⟨(take_panic 5 (fun _ => (Except.error () : Except Unit Nat)) rfl).1,
    (take_panic 5 (fun _ => (Except.error () : Except Unit Nat)) rfl).2.1⟩

/-- C4: for every type with a Sentinel implementation whose constructor
returns normally producing `s`, and every transformation that panics,
`take_no_exit` does not terminate the process: the panic propagates to the
caller and the final slot state is exactly the freshly constructed
sentinel `s`. -/
theorem take_no_exit_panic {T : Type} (S : Sentinel T) (v s : T)
    (f : T → Except Unit T) (hs : S.new_sentinel = .ok s)
    (hf : f v = .error ()) :
    take_no_exit S v f = .panicked s ∧
      ∀ c : Nat, take_no_exit S v f ≠ .exited c := by
  refine ⟨by simp [take_no_exit, hs, hf], ?_⟩
  intro c
  simp [take_no_exit, hs, hf]

theorem take_no_exit_panic_witness :
    take_no_exit (optionSentinel Nat) (some 5)
        (fun _ => (Except.error () : Except Unit (Option Nat))) =
      .panicked none ∧
    Except.ok (none : Option Nat) = (optionSentinel Nat).new_sentinel :=
  ⟨(take_no_exit_panic (optionSentinel Nat) (some 5) none
      (fun _ => Except.error ()) rfl rfl).1, rfl⟩

/-- C5: for every type, the built-in Option sentinel provider constructs
the absent state: `new_sentinel` yields `none` (returning normally). -/
theorem option_new_sentinel {T : Type} :
    (optionSentinel T).new_sentinel = .ok none := rfl

/-- C6: for the built-in Option sentinel provider, under the precondition
that the argument is exactly the value produced by `new_sentinel` (the
absent state), `release_sentinel` returns normally with no observable
effect; the present-value branch (which is undefined behavior in the
model, reflecting the unchecked unwrap) is never taken. -/
theorem option_release_sentinel {T : Type} (x : Option T)
    (hx : Except.ok x = (optionSentinel T).new_sentinel) :
    (optionSentinel T).release_sentinel x = some () := by
  have hx0 : x = none := by
    simpa [optionSentinel] using hx
  subst hx0
  rfl

theorem option_release_sentinel_witness :
    Except.ok (none : Option Nat) = (optionSentinel Nat).new_sentinel ∧
      (optionSentinel Nat).release_sentinel none = some () :=
  ⟨rfl, option_release_sentinel (none : Option Nat) rfl⟩

/-- C7: for every type and every slot value, `take` with the identity
transformation (which performs no disposal) leaves the slot value
unchanged. -/
theorem take_identity {T : Type} (v : T) :
    take v (fun x => .ok x) = .normal v := rfl

/-- C8: in every call to `take` or `take_no_exit` (the latter with a
normally-returning sentinel constructor), the trace contains exactly one
closure invocation and its argument is the original slot value; in the
concrete scenario where the slot holds `Foo.A` and the closure disposes
its argument and returns `Foo.B`, the final slot state is `Foo.B` and the
trace shows the disposal of `A` exactly once, strictly before `B` is
installed. -/
theorem closure_called_once {T : Type} (S : Sentinel T) (slot s : T)
    (cl : T → List T × Except Unit T) (hs : S.new_sentinel = .ok s) :
    ((takeTraced slot cl).2.countP Event.isCalled = 1 ∧
      ∀ v, Event.called v ∈ (takeTraced slot cl).2 → v = slot) ∧
    ((take_no_exitTraced S slot cl).2.countP Event.isCalled = 1 ∧
      ∀ v, Event.called v ∈ (take_no_exitTraced S slot cl).2 → v = slot) ∧
    takeTraced Foo.A (fun v => ([v], .ok Foo.B)) =
      (.normal Foo.B,
        [.called Foo.A, .disposed Foo.A, .installed Foo.B]) := by
  refine ⟨?_, ?_, rfl⟩
  · rcases h : cl slot with ⟨ds, r⟩
    cases r with
    | ok w =>
      constructor
      · simp [takeTraced, h, List.countP_cons, List.countP_append,
          Event.isCalled, countP_isCalled_map_disposed]
      · intro v hv
        simp [takeTraced, h] at hv
        simp_all
    | error e =>
      constructor
      · simp [takeTraced, h, List.countP_cons, Event.isCalled,
          countP_isCalled_map_disposed]
      · intro v hv
        simp [takeTraced, h] at hv
        simp_all
  · rcases h : cl slot with ⟨ds, r⟩
    cases r with
    | ok w =>
      cases hr : S.release_sentinel s with
      | some u =>
        constructor
        · simp [take_no_exitTraced, hs, h, hr, List.countP_cons,
            List.countP_append, Event.isCalled, countP_isCalled_map_disposed]
        · intro v hv
          simp [take_no_exitTraced, hs, h, hr] at hv
          simp_all
      | none =>
        constructor
        · simp [take_no_exitTraced, hs, h, hr, List.countP_cons,
            List.countP_append, Event.isCalled, countP_isCalled_map_disposed]
        · intro v hv
          simp [take_no_exitTraced, hs, h, hr] at hv
          simp_all
    | error e =>
      constructor
      · simp [take_no_exitTraced, hs, h, List.countP_cons, Event.isCalled,
          countP_isCalled_map_disposed]
      · intro v hv
        simp [take_no_exitTraced, hs, h] at hv
        simp_all

theorem closure_called_once_witness :
    (optionSentinel Nat).new_sentinel = .ok none ∧
      (take_no_exitTraced (optionSentinel Nat) (some 0)
          (fun v => ([], .ok v))).2.countP Event.isCalled = 1 :=
  ⟨rfl,
    (closure_called_once (optionSentinel Nat) (some 0) none
        (fun v => ([], .ok v)) rfl).2.1.1⟩

/-- C9: in `take_no_exit` the sentinel is constructed before the slot is
modified; if the sentinel constructor itself panics, the slot is left
unchanged, still holding the original value, and the panic propagates. -/
theorem take_no_exit_new_sentinel_panic {T : Type} (S : Sentinel T) (v : T)
    (f : T → Except Unit T) (hs : S.new_sentinel = .error ()) :
    take_no_exit S v f = .panicked v := by
  simp [take_no_exit, hs]

theorem take_no_exit_new_sentinel_panic_witness :
    take_no_exit (Sentinel.mk (T := Nat) (.error ()) (fun _ => some ())) 7
        (fun n => .ok n) = .panicked 7 :=
  take_no_exit_new_sentinel_panic
    (Sentinel.mk (.error ()) (fun _ => some ())) 7 (fun n => .ok n) rfl

/-- C10: for every type with a Sentinel implementation honoring its
contract and every transformation that returns normally, `take` and
`take_no_exit` produce the same final outcome: a normal return with the
slot holding the transformation result. -/
theorem take_eq_take_no_exit {T : Type} (S : Sentinel T) (v w s : T)
    (f : T → Except Unit T) (hs : S.new_sentinel = .ok s)
    (hr : S.release_sentinel s = some ()) (hf : f v = .ok w) :
    take v f = take_no_exit S v f ∧ take v f = .normal w := by
  constructor
  · simp [take, exit_on_panic, take_no_exit, hs, hf, hr]
  · simp [take, exit_on_panic, hf]

theorem take_eq_take_no_exit_witness :
    take (some 5) (fun v : Option Nat => .ok (v.map (fun x => x + 1))) =
        take_no_exit (optionSentinel Nat) (some 5)
          (fun v => .ok (v.map (fun x => x + 1))) ∧
      take (some 5) (fun v : Option Nat => .ok (v.map (fun x => x + 1))) =
        .normal (some 6) :=
  take_eq_take_no_exit (optionSentinel Nat) (some 5) (some 6) none
    (fun v => .ok (v.map (fun x => x + 1))) rfl rfl rfl

end TakeMut
